import Mathlib

/-!
Verification development for the twpost repository: a shallow embedding of
the browser session lifecycle manager (src/chrome_utils.py, src/twpost.py)
and of the timeline response extractor (src/tw_xhr_test.py), together with
theorems settling the specification claims.
-/

set_option maxRecDepth 4000

namespace Twpost

/-! ## JSON value model

Values produced by json.loads.  JSON numbers are modelled as integers: every
numeric field the extractor touches (favorite_count, retweet_count) is an
integer in the payloads of interest.  Python dicts are modelled as
association lists in insertion order (json.loads yields unique keys). -/

inductive JVal where
  | null
  | bool (b : Bool)
  | int (n : Int)
  | str (s : String)
  | list (xs : List JVal)
  | dict (fields : List (String × JVal))

/-- Python truthiness of a JSON value: None, False, 0, empty string, empty
list and empty dict are falsy; everything else is truthy. -/
def JVal.truthy : JVal → Bool
  | .null => false
  | .bool b => b
  | .int n => n != 0
  | .str s => s != ""
  | .list xs => !xs.isEmpty
  | .dict fs => !fs.isEmpty

/-- Python equality of a JSON value against a string literal: only a string
with the same contents compares equal (cross-type == with a str is False). -/
def JVal.isStr (v : JVal) (s : String) : Bool :=
  match v with
  | .str t => t == s
  | _ => false

/-- Python `v.get(k, dflt)`: defined on dicts, AttributeError on anything
else (the error is caught at the top of parse_twitter_response). -/
def pyGet (v : JVal) (k : String) (dflt : JVal) : Except String JVal :=
  match v with
  | .dict fs => .ok ((fs.lookup k).getD dflt)
  | _ => .error "AttributeError: get"

/-- Python `v.get(k)` with no default: missing keys yield None. -/
def pyGetOpt (v : JVal) (k : String) : Except String JVal :=
  pyGet v k .null

/-- Python `v.items()`: defined on dicts only. -/
def pyItems (v : JVal) : Except String (List (String × JVal)) :=
  match v with
  | .dict fs => .ok fs
  | _ => .error "AttributeError: items"

/-- Python `for x in v`: lists iterate elements, strings iterate one-character
strings, dicts iterate keys; other values raise TypeError. -/
def pyIter (v : JVal) : Except String (List JVal) :=
  match v with
  | .list xs => .ok xs
  | .str s => .ok (s.data.map fun c => JVal.str (String.singleton c))
  | .dict fs => .ok (fs.map fun p => JVal.str p.1)
  | _ => .error "TypeError: not iterable"

/-- Contiguous-sublist test on character lists, for the string case of the
Python `in` operator. -/
def listIsInfixOf (needle : List Char) : List Char → Bool
  | [] => needle.isEmpty
  | c :: rest => needle.isPrefixOf (c :: rest) || listIsInfixOf needle rest

/-- Python `k in v` for a string k: key membership for dicts, element
equality for lists, substring test for strings, TypeError otherwise. -/
def pyIn (k : String) (v : JVal) : Except String Bool :=
  match v with
  | .dict fs => .ok (fs.any fun p => p.1 == k)
  | .list xs => .ok (xs.any fun x => x.isStr k)
  | .str s => .ok (listIsInfixOf k.data s.data)
  | _ => .error "TypeError: in"

/-- `isinstance(v, dict)`. -/
def JVal.isDict : JVal → Bool
  | .dict _ => true
  | _ => false

/-! ## Extractor: parse_twitter_response (src/tw_xhr_test.py lines 27-84) -/

/-- One extracted tweet record, mirroring the dict literal built at
src/tw_xhr_test.py lines 67-75.  Field values are whatever JSON values the
payload stores (Python copies them unchanged). -/
structure Tweet where
  text : JVal
  user_name : JVal
  screen_name : JVal
  created_at : JVal
  favorite_count : JVal
  retweet_count : JVal
  id : JVal

/-- Handling of one timeline entry (src/tw_xhr_test.py lines 50-77):
descend content -> itemContent -> tweet_results -> result, check the type
tags, read the legacy and user sub-objects, and emit a record only when the
primary text is truthy. -/
def processEntry (entry : JVal) : Except String (Option Tweet) := do
  let content ← pyGet entry "content" (.dict [])
  let entryType ← pyGetOpt content "entryType"
  if entryType.isStr "TimelineTimelineItem" then
    let itemContent ← pyGet content "itemContent" (.dict [])
    let itemType ← pyGetOpt itemContent "itemType"
    if itemType.isStr "TimelineTweet" then
      let tweetResults ← pyGet itemContent "tweet_results" (.dict [])
      let result ← pyGet tweetResults "result" (.dict [])
      let typename ← pyGetOpt result "__typename"
      if typename.isStr "Tweet" then
        let legacy ← pyGet result "legacy" (.dict [])
        let core ← pyGet result "core" (.dict [])
        let userResults ← pyGet core "user_results" (.dict [])
        let userResult ← pyGet userResults "result" (.dict [])
        let user ← pyGet userResult "legacy" (.dict [])
        let text ← pyGet legacy "full_text" (.str "")
        let userName ← pyGet user "name" (.str "")
        let screenName ← pyGet user "screen_name" (.str "")
        let createdAt ← pyGet legacy "created_at" (.str "")
        let favoriteCount ← pyGet legacy "favorite_count" (.int 0)
        let retweetCount ← pyGet legacy "retweet_count" (.int 0)
        let idStr ← pyGet legacy "id_str" (.str "")
        if text.truthy then
          pure (some ⟨text, userName, screenName, createdAt,
                      favoriteCount, retweetCount, idStr⟩)
        else
          pure none
      else
        pure none
    else
      pure none
  else
    pure none

/-- The entry loop at src/tw_xhr_test.py line 50, in payload order. -/
def processEntries : List JVal → Except String (List Tweet)
  | [] => pure []
  | e :: rest => do
      let t? ← processEntry e
      let more ← processEntries rest
      match t? with
      | some t => pure (t :: more)
      | none => pure more

/-- One instruction (src/tw_xhr_test.py lines 44-49): only instructions of
type TimelineAddEntries contribute entries. -/
def processInstruction (instr : JVal) : Except String (List Tweet) := do
  let instrType ← pyGetOpt instr "type"
  if instrType.isStr "TimelineAddEntries" then
    let entries ← pyGet instr "entries" (.list [])
    let entryList ← pyIter entries
    processEntries entryList
  else
    pure []

/-- The instruction loop at src/tw_xhr_test.py line 44. -/
def processInstructions : List JVal → Except String (List Tweet)
  | [] => pure []
  | i :: rest => do
      let ts ← processInstruction i
      let more ← processInstructions rest
      pure (ts ++ more)

/-- Handling of one value nested under the top-level data mapping
(src/tw_xhr_test.py lines 39-43): non-dicts are skipped; for dicts the
timeline container is the first truthy candidate of
value.get(home_timeline_urt), value.get(timeline_urt), value itself
(Python `or` chain, evaluated left to right with short-circuit). -/
def processValue (value : JVal) : Except String (List Tweet) :=
  match value with
  | .dict fs =>
      let h := (fs.lookup "home_timeline_urt").getD .null
      let timeline :=
        if h.truthy then h
        else
          let t := (fs.lookup "timeline_urt").getD .null
          if t.truthy then t else JVal.dict fs
      do
        let instructions ← pyGet timeline "instructions" (.list [])
        let instrList ← pyIter instructions
        processInstructions instrList
  | _ => pure []

/-- The outer loop over data.get("data", ...).items()
(src/tw_xhr_test.py line 38); the key is unused. -/
def processItems : List (String × JVal) → Except String (List Tweet)
  | [] => pure []
  | (_, v) :: rest => do
      let ts ← processValue v
      let more ← processItems rest
      pure (ts ++ more)

/-- The body of the try block of parse_twitter_response after json.loads
(src/tw_xhr_test.py lines 31-79).  An `Except.error` value models a Python
exception raised inside the try block. -/
def parseCore (data : JVal) : Except String (List Tweet) := do
  let hasData ← pyIn "data" data
  if hasData then
    let d ← pyGet data "data" (.dict [])
    let items ← pyItems d
    processItems items
  else
    pure []

/-- parse_twitter_response (src/tw_xhr_test.py lines 27-84).  json.loads is
modelled by the oracle `loads` (None = the body is not valid JSON, in which
case json.loads raises and the except block returns the empty list).  Any
exception raised inside the try block is likewise caught and turned into
the empty list. -/
def parse_twitter_response (loads : String → Option JVal) (body : String) :
    List Tweet :=
  match loads body with
  | none => []
  | some data =>
      match parseCore data with
      | .ok tweets => tweets
      | .error _ => []

/-! ### Concrete payload builders used to state the extractor claims -/

/-- A well-formed timeline entry wrapping a given tweet result object. -/
def entryOf (result : JVal) : JVal :=
  .dict [("content", .dict
    [("entryType", .str "TimelineTimelineItem"),
     ("itemContent", .dict
       [("itemType", .str "TimelineTweet"),
        ("tweet_results", .dict [("result", result)])])])]

/-- A timeline container holding one TimelineAddEntries instruction with the
given entries. -/
def timelineOf (entries : List JVal) : JVal :=
  .dict [("instructions", .list
    [.dict [("type", .str "TimelineAddEntries"),
            ("entries", .list entries)]])]

/-- A full payload nesting a timeline container under
data.home.home_timeline_urt. -/
def payloadOf (entries : List JVal) : JVal :=
  .dict [("data", .dict [("home", .dict
    [("home_timeline_urt", timelineOf entries)])])]

/-- A tweet result object with author, timestamp, counts and id present. -/
def fullTweetResult (fullText : String) : JVal :=
  .dict [("__typename", .str "Tweet"),
         ("core", .dict [("user_results", .dict [("result", .dict
           [("legacy", .dict [("name", .str "Alice"),
                              ("screen_name", .str "alice")])])])]),
         ("legacy", .dict
           [("full_text", .str fullText),
            ("created_at", .str "Mon Jan 01"),
            ("favorite_count", .int 3),
            ("retweet_count", .int 1),
            ("id_str", .str "123")])]

/-- A tweet result object carrying only the type tag and the primary text:
author sub-object, timestamp, counts and id are all absent. -/
def bareTweetResult (fullText : String) : JVal :=
  .dict [("__typename", .str "Tweet"),
         ("legacy", .dict [("full_text", .str fullText)])]

/-- A payload nesting an arbitrary timeline value under
data.home.home_timeline_urt. -/
def wrapHome (t : JVal) : JVal :=
  .dict [("data", .dict [("home", .dict [("home_timeline_urt", t)])])]

/-- A payload nesting the same timeline value under data.home.timeline_urt
instead. -/
def wrapTimeline (t : JVal) : JVal :=
  .dict [("data", .dict [("home", .dict [("timeline_urt", t)])])]

/-! ## Session lifecycle model (src/chrome_utils.py, src/twpost.py)

The lifecycle functions interact with the operating system (sockets,
subprocesses, environment variables).  The embedding makes those
interactions explicit: a `SysEnv` oracle fixes the outcome of every external
query, and each function returns its value together with the list of
side effects it performed, in order.  An `Except.error` value models a
Python exception escaping the function. -/

/-- The fixed remote-debugging port (src/chrome_utils.py line 13,
src/twpost.py line 15). -/
def CDP_PORT : Nat := 9222

/-- The reserved virtual display identifier (src/chrome_utils.py line 15). -/
def XVFB_DISPLAY : String := ":99"

/-- One observable side effect of the lifecycle code. -/
inductive Effect where
  | probe (port : Nat)
  | findChrome
  | xsetQuery
  | xdotoolMove
  | xdotoolKey
  | xdpyinfoQuery (display : String)
  | pgrepXvfb
  | startXvfb (args : List String)
  | setEnvDisplay (d : String)
  | pkill (pattern : String)
  | unlinkLock (path : String)
  | startChrome (args : List String) (display : Option String)
  | sleep (ms : Nat)
deriving Repr, DecidableEq

/-- Whether an effect is a call to is_port_open. -/
def Effect.isProbe : Effect → Bool
  | .probe _ => true
  | _ => false

/-- Whether an effect is the browser process launch. -/
def Effect.isStartChrome : Effect → Bool
  | .startChrome _ _ => true
  | _ => false

/-- Outcome of the C-level connect call on a TCP socket. -/
inductive ConnectOutcome where
  | success
  | refused
  | timedOut
deriving Repr, DecidableEq

/-- socket.connect_ex: returns 0 on success and the error number on
failure, instead of raising (errno 111 = connection refused, errno 110 =
timed out). -/
def connect_ex : ConnectOutcome → Int
  | .success => 0
  | .refused => 111
  | .timedOut => 110

/-- is_port_open (src/chrome_utils.py lines 61-65 and src/twpost.py lines
19-23, identical): true exactly when connect_ex returns 0 within the 1s
socket timeout.  `net` is the oracle giving the connect outcome per port. -/
def is_port_open (net : Nat → ConnectOutcome) (port : Nat) : Bool :=
  connect_ex (net port) == 0

/-- Oracle for every external query the chrome_utils lifecycle code makes.
`portProbe n` is the outcome of the n-th is_port_open call (call 0 is the
fast-path check, calls 1.. are the readiness polls).  `xdpyinfo = none`
means the xdpyinfo subprocess call raises (binary missing or the 2s timeout
expires); `xsetMonitorOff = none` means the xset query inside wake_screen
raises (that exception is caught locally).  pgrep, pkill, unlink and Popen
are modelled as total: the corresponding system binaries are assumed
present. -/
structure SysEnv where
  portProbe : Nat → Bool
  chromeBin : Option String
  isMac : Bool
  displayVar : String
  xsetMonitorOff : Option Bool
  xdpyinfo : Option Bool
  xvfbRunning : Bool
  headlessVar : String
  home : String

/-- wake_screen (src/chrome_utils.py lines 31-58): queries xset; if the
monitor is reported off, issues two synthetic mouse moves, a key press and
a 0.5s sleep.  Every exception is caught and the function returns True. -/
def wake_screen (env : SysEnv) : Bool × List Effect :=
  match env.xsetMonitorOff with
  | none => (true, [.xsetQuery])
  | some false => (true, [.xsetQuery])
  | some true =>
      (true, [.xsetQuery, .xdotoolMove, .xdotoolMove, .xdotoolKey, .sleep 500])

/-- has_real_display (src/chrome_utils.py lines 68-83): false when DISPLAY
is the reserved virtual identifier or unset/empty; otherwise runs xdpyinfo
(2s timeout) and returns whether it exited with code 0.  The xdpyinfo
subprocess call is not wrapped in try/except, so its failure to run is a
raised exception. -/
def has_real_display (env : SysEnv) : Except String Bool × List Effect :=
  if env.displayVar = XVFB_DISPLAY then (.ok false, [])
  else if env.displayVar = "" then (.ok false, [])
  else
    match env.xdpyinfo with
    | none => (.error "subprocess: xdpyinfo failed to run",
               [.xdpyinfoQuery env.displayVar])
    | some ok => (.ok ok, [.xdpyinfoQuery env.displayVar])

/-- ensure_xvfb (src/chrome_utils.py lines 86-102): if pgrep finds an Xvfb
process for the reserved display, set DISPLAY and return True; otherwise
start Xvfb at 1920x1080x24, sleep 1s, set DISPLAY and return True. -/
def ensure_xvfb (env : SysEnv) : Bool × List Effect :=
  if env.xvfbRunning then
    (true, [.pgrepXvfb, .setEnvDisplay XVFB_DISPLAY])
  else
    (true, [.pgrepXvfb,
            .startXvfb ["Xvfb", XVFB_DISPLAY, "-screen", "0", "1920x1080x24"],
            .sleep 1000, .setEnvDisplay XVFB_DISPLAY])

/-- Result of the display-resolution block. -/
inductive DisplayRes where
  | fail
  | use (display : Option String)
deriving Repr, DecidableEq

/-- The Linux display-resolution block inlined in ensure_chrome_cdp
(src/chrome_utils.py lines 121-131): wake the screen, use the real display
when has_real_display succeeds (os.environ.get with no default: None when
DISPLAY is unset), otherwise fall back to ensure_xvfb; `.fail` is the
`return False` branch taken when ensure_xvfb returns False. -/
def resolveDisplay (env : SysEnv) : Except String DisplayRes × List Effect :=
  let wtr := (wake_screen env).2
  match has_real_display env with
  | (.error e, htr) => (.error e, wtr ++ htr)
  | (.ok true, htr) =>
      (.ok (.use (if env.displayVar = "" then none else some env.displayVar)),
       wtr ++ htr)
  | (.ok false, htr) =>
      match ensure_xvfb env with
      | (true, xtr) => (.ok (.use (some XVFB_DISPLAY)), wtr ++ htr ++ xtr)
      | (false, xtr) => (.ok .fail, wtr ++ htr ++ xtr)

/-- Truthiness test of the CHROME_HEADLESS environment value
(src/chrome_utils.py line 147). -/
def headlessFromEnv (s : String) : Bool :=
  ["1", "true", "yes"].contains s.toLower

/-- The launch argument list (src/chrome_utils.py lines 148-155): binary,
remote-debugging port, persistent profile directory, and the headless flag
when headless mode is forced or the resolved display is the virtual one. -/
def buildChromeArgs (chromeBin : String) (dataDir : String)
    (headlessMode : Bool) (display : Option String) : List String :=
  [chromeBin,
   "--remote-debugging-port=" ++ toString CDP_PORT,
   "--user-data-dir=" ++ dataDir] ++
  (if headlessMode || display == some XVFB_DISPLAY then
     ["--headless=new"]
   else [])

/-- The readiness polling loop (src/chrome_utils.py lines 169-177, and with
3 attempts src/twpost.py lines 46-54): each attempt sleeps 1s then probes
the port; on first success an extra 2s initialization wait is granted and
the loop reports true; after exhausting the attempts it reports false.
`i` indexes the probe oracle. -/
def awaitCdpReady (probe : Nat → Bool) (attempts : Nat) (i : Nat) :
    Bool × List Effect :=
  match attempts with
  | 0 => (false, [])
  | n + 1 =>
      if probe i then
        (true, [.sleep 1000, .probe CDP_PORT, .sleep 2000])
      else
        let rest := awaitCdpReady probe n (i + 1)
        (rest.1, [.sleep 1000, .probe CDP_PORT] ++ rest.2)

/-- ensure_chrome_cdp (src/chrome_utils.py lines 105-177): fast path when
the debug port is already open; locate Chrome (False when absent); on
non-mac resolve the display; kill stale Chrome processes and wait 2s;
remove the stale SingletonLock in the dedicated profile directory; build
the argument list; start Chrome detached with DISPLAY injected; poll
readiness 5 times. -/
def ensure_chrome_cdp (env : SysEnv) : Except String Bool × List Effect :=
  if env.portProbe 0 then (.ok true, [.probe CDP_PORT])
  else
    match env.chromeBin with
    | none => (.ok false, [.probe CDP_PORT, .findChrome])
    | some chromeBin =>
        match (if env.isMac then
                 ((.ok (.use none) : Except String DisplayRes),
                  ([] : List Effect))
               else resolveDisplay env) with
        | (.error e, dtr) =>
            (.error e, [.probe CDP_PORT, .findChrome] ++ dtr)
        | (.ok .fail, dtr) =>
            (.ok false, [.probe CDP_PORT, .findChrome] ++ dtr)
        | (.ok (.use display), dtr) =>
            let dataDir := env.home ++ "/.chrome_bot"
            let args :=
              buildChromeArgs chromeBin dataDir
                (headlessFromEnv env.headlessVar) display
            let launch := awaitCdpReady env.portProbe 5 1
            (.ok launch.1,
             [.probe CDP_PORT, .findChrome] ++ dtr ++
             [.pkill (if env.isMac then "Google Chrome" else "google-chrome"),
              .sleep 2000,
              .unlinkLock (dataDir ++ "/SingletonLock"),
              .startChrome args display] ++ launch.2)

/-- Oracle for the twpost.py variant, which performs no executable search
and no display management. -/
structure TwEnv where
  portProbe : Nat → Bool
  scriptDir : String

/-- The ensure_chrome_cdp variant in src/twpost.py lines 26-54: fast path
on open port, otherwise pkill + 2s settle, start google-chrome with the
script-local profile directory, then poll readiness 3 times. -/
def twpost_ensure_chrome_cdp (env : TwEnv) : Bool × List Effect :=
  if env.portProbe 0 then (true, [.probe CDP_PORT])
  else
    let dataDir := env.scriptDir ++ "/.chrome"
    let launch := awaitCdpReady env.portProbe 3 1
    (launch.1,
     [.probe CDP_PORT, .pkill "chrome", .sleep 2000,
      .startChrome
        ["google-chrome",
         "--remote-debugging-port=" ++ toString CDP_PORT,
         "--user-data-dir=" ++ dataDir] none] ++ launch.2)

/-- Number of readiness polls performed after the browser process was
started: is_port_open calls from the first startChrome effect onward. -/
def launchPolls (tr : List Effect) : Nat :=
  ((tr.dropWhile fun e => !e.isStartChrome).filter Effect.isProbe).length

/-! ## Helper lemmas -/

theorem exceptBind_ok {α β : Type} (a : α) (f : α → Except String β) :
    (Except.ok a >>= f) = f a := rfl

theorem exceptBind_error {α β : Type} (e : String) (f : α → Except String β) :
    ((Except.error e : Except String α) >>= f) = Except.error e := rfl

theorem exceptPure_eq {α : Type} (a : α) :
    (pure a : Except String α) = Except.ok a := rfl

theorem lookup_none_any (fs : List (String × JVal)) (k : String)
    (h : fs.lookup k = none) : (fs.any fun p => p.1 == k) = false := by
  induction fs with
  | nil => rfl
  | cons a t ih =>
      obtain ⟨k1, v1⟩ := a
      by_cases hk : k = k1
      · subst hk; simp [List.lookup] at h
      · have hk1 : (k == k1) = false := beq_eq_false_iff_ne.2 hk
        have hk2 : (k1 == k) = false := beq_eq_false_iff_ne.2 (Ne.symm hk)
        simp [List.lookup, hk1] at h
        simp [hk2]
        exact fun a b hab hak => h a b hab hak.symm

theorem truthy_null : JVal.null.truthy = false := rfl

/-! ## Extractor claims -/

/-- C2: for every input body, parse_twitter_response never lets an exception
escape: a body that is not valid JSON, a parsed value without a data key,
and any internal exception from an unexpected intermediate shape all yield
the empty record list instead of a raised error. -/
theorem claim2_parse_never_raises (loads : String → Option JVal) (body : String) :
    (loads body = none → parse_twitter_response loads body = []) ∧
    (∀ fs, loads body = some (JVal.dict fs) → fs.lookup "data" = none →
      parse_twitter_response loads body = []) ∧
    (∀ v e, loads body = some v → parseCore v = Except.error e →
      parse_twitter_response loads body = []) := by
  refine ⟨fun h => by simp [parse_twitter_response, h], ?_, ?_⟩
  · intro fs hl hnone
    have hany : (fs.any fun p => p.1 == "data") = false :=
      lookup_none_any fs "data" hnone
    simp [parse_twitter_response, hl, parseCore, pyIn, hany, exceptBind_ok,
      exceptPure_eq]
  · intro v e hl he
    simp [parse_twitter_response, hl, he]

theorem claim2_witness :
    parse_twitter_response (fun _ => none) "" = [] ∧
    parse_twitter_response (fun _ => some (JVal.dict [("other", JVal.int 1)])) "" = [] ∧
    parse_twitter_response (fun _ => some (JVal.int 7)) "" = [] :=
  ⟨(claim2_parse_never_raises (fun _ => none) "").1 rfl,
   (claim2_parse_never_raises (fun _ => some (JVal.dict [("other", JVal.int 1)])) "").2.1
     [("other", JVal.int 1)] rfl rfl,
   (claim2_parse_never_raises (fun _ => some (JVal.int 7)) "").2.2
     (JVal.int 7) "TypeError: in" rfl rfl⟩

/-- C4: a record is emitted only when the primary text is non-empty: a
well-formed payload whose single tweet entry has empty full_text yields no
record, and the same payload with full_text "hello" yields exactly one
record whose text is "hello". -/
theorem claim4_text_filter :
    parse_twitter_response
        (fun _ => some (payloadOf [entryOf (fullTweetResult "")])) "" = [] ∧
    parse_twitter_response
        (fun _ => some (payloadOf [entryOf (fullTweetResult "hello")])) "" =
      [⟨.str "hello", .str "Alice", .str "alice", .str "Mon Jan 01",
        .int 3, .int 1, .str "123"⟩] :=
  ⟨rfl, rfl⟩

/-- C6: the timeline container is located by trying home_timeline_urt
first, then timeline_urt, then the value itself; consequently a payload
nesting any timeline value under home_timeline_urt and one nesting the same
value under timeline_urt extract equal record sequences. -/
theorem claim6_container_fallback (t : JVal) :
    parse_twitter_response (fun _ => some (wrapHome t)) "" =
      parse_twitter_response (fun _ => some (wrapTimeline t)) "" := by
  cases ht : t.truthy with
  | true =>
      simp [parse_twitter_response, wrapHome, wrapTimeline, parseCore, pyIn, pyGet,
        pyItems, processItems, processValue, pyIter, processInstructions, ht,
        truthy_null, exceptBind_ok, exceptPure_eq, List.lookup, Option.getD]
  | false =>
      simp [parse_twitter_response, wrapHome, wrapTimeline, parseCore, pyIn, pyGet,
        pyItems, processItems, processValue, pyIter, processInstructions, ht,
        truthy_null, exceptBind_ok, exceptPure_eq, List.lookup, Option.getD]

/-- C10: a tweet entry whose result has type tag Tweet and non-empty
full_text is still emitted when the author sub-object, id, timestamp and
count fields are missing, with default values: empty strings for the author
names, timestamp and id, and zero for both counts. -/
theorem claim10_missing_fields_defaults (s : String) (hs : s ≠ "") :
    parse_twitter_response
        (fun _ => some (payloadOf [entryOf (bareTweetResult s)])) "" =
      [⟨.str s, .str "", .str "", .str "", .int 0, .int 0, .str ""⟩] := by
  have htr : (JVal.str s).truthy = true := by simpa [JVal.truthy] using hs
  have h1 : processEntry (entryOf (bareTweetResult s)) =
      if (JVal.str s).truthy = true then
        Except.ok (some ⟨.str s, .str "", .str "", .str "", .int 0, .int 0, .str ""⟩)
      else Except.ok none := rfl
  rw [if_pos htr] at h1
  simp [parse_twitter_response, payloadOf, timelineOf, parseCore, pyIn, pyGet, pyItems,
    pyIter, pyGetOpt, processItems, processValue, processInstructions, processInstruction,
    processEntries, h1, exceptBind_ok, exceptPure_eq, List.lookup, Option.getD,
    JVal.truthy, JVal.isStr]

theorem claim10_witness :
    parse_twitter_response
        (fun _ => some (payloadOf [entryOf (bareTweetResult "hi")])) "" =
      [⟨.str "hi", .str "", .str "", .str "", .int 0, .int 0, .str ""⟩] :=
  claim10_missing_fields_defaults "hi" (by decide)

/-! ## Lifecycle helper lemmas -/

theorem no_start_append {l1 l2 : List Effect}
    (h1 : ∀ e ∈ l1, e.isStartChrome = false)
    (h2 : ∀ e ∈ l2, e.isStartChrome = false) :
    ∀ e ∈ l1 ++ l2, e.isStartChrome = false := by
  intro e he
  rcases List.mem_append.1 he with h | h
  exacts [h1 e h, h2 e h]

theorem wake_screen_no_start (env : SysEnv) :
    ∀ e ∈ (wake_screen env).2, e.isStartChrome = false := by
  rcases hm : env.xsetMonitorOff with _ | b
  · simp [wake_screen, hm]; decide
  · cases b <;> simp [wake_screen, hm] <;> decide

theorem wake_screen_trace (env : SysEnv) :
    (wake_screen env).2 = [Effect.xsetQuery] ∨
    (wake_screen env).2 = [Effect.xsetQuery, Effect.xdotoolMove, Effect.xdotoolMove,
      Effect.xdotoolKey, Effect.sleep 500] := by
  rcases hm : env.xsetMonitorOff with _ | b
  · left; simp [wake_screen, hm]
  · cases b
    · left; simp [wake_screen, hm]
    · right; simp [wake_screen, hm]

theorem has_real_display_trace (env : SysEnv) :
    (has_real_display env).2 = [] ∨
    ∃ d, (has_real_display env).2 = [Effect.xdpyinfoQuery d] := by
  by_cases h1 : env.displayVar = XVFB_DISPLAY
  · left; simp [has_real_display, h1]
  · by_cases h2 : env.displayVar = ""
    · left; simp [has_real_display, h1, h2]
    · rcases hxd : env.xdpyinfo with _ | b
      · right; exact ⟨env.displayVar, by simp [has_real_display, h1, h2, hxd]⟩
      · right; exact ⟨env.displayVar, by simp [has_real_display, h1, h2, hxd]⟩

theorem no_start_of_eq (env : SysEnv) (rest : List Effect)
    (htr : (resolveDisplay env).2 = (wake_screen env).2 ++ rest)
    (hrest : ∀ e ∈ rest, e.isStartChrome = false) :
    ∀ e ∈ (resolveDisplay env).2, e.isStartChrome = false := by
  rw [htr]
  exact no_start_append (wake_screen_no_start env) hrest

theorem resolveDisplay_ok (env : SysEnv)
    (h : env.displayVar = "" ∨ env.displayVar = XVFB_DISPLAY ∨ env.xdpyinfo ≠ none) :
    ∃ d, (resolveDisplay env).1 = Except.ok (DisplayRes.use d) ∧
      ∀ e ∈ (resolveDisplay env).2, e.isStartChrome = false := by
  by_cases h99 : env.displayVar = XVFB_DISPLAY
  · cases hxv : env.xvfbRunning
    · exact ⟨some XVFB_DISPLAY,
        by simp [resolveDisplay, has_real_display, ensure_xvfb, h99, hxv],
        no_start_of_eq env
          [Effect.pgrepXvfb,
           Effect.startXvfb ["Xvfb", XVFB_DISPLAY, "-screen", "0", "1920x1080x24"],
           Effect.sleep 1000, Effect.setEnvDisplay XVFB_DISPLAY]
          (by simp [resolveDisplay, has_real_display, ensure_xvfb, h99, hxv])
          (by decide)⟩
    · exact ⟨some XVFB_DISPLAY,
        by simp [resolveDisplay, has_real_display, ensure_xvfb, h99, hxv],
        no_start_of_eq env
          [Effect.pgrepXvfb, Effect.setEnvDisplay XVFB_DISPLAY]
          (by simp [resolveDisplay, has_real_display, ensure_xvfb, h99, hxv])
          (by decide)⟩
  · by_cases hempty : env.displayVar = ""
    · cases hxv : env.xvfbRunning
      · exact ⟨some XVFB_DISPLAY,
          by simp [resolveDisplay, has_real_display, ensure_xvfb, h99, hempty, hxv],
          no_start_of_eq env
            [Effect.pgrepXvfb,
             Effect.startXvfb ["Xvfb", XVFB_DISPLAY, "-screen", "0", "1920x1080x24"],
             Effect.sleep 1000, Effect.setEnvDisplay XVFB_DISPLAY]
            (by simp [resolveDisplay, has_real_display, ensure_xvfb, h99, hempty, hxv])
            (by decide)⟩
      · exact ⟨some XVFB_DISPLAY,
          by simp [resolveDisplay, has_real_display, ensure_xvfb, h99, hempty, hxv],
          no_start_of_eq env
            [Effect.pgrepXvfb, Effect.setEnvDisplay XVFB_DISPLAY]
            (by simp [resolveDisplay, has_real_display, ensure_xvfb, h99, hempty, hxv])
            (by decide)⟩
    · have hx : env.xdpyinfo ≠ none := by
        rcases h with h | h | h
        · exact absurd h hempty
        · exact absurd h h99
        · exact h
      rcases hxd : env.xdpyinfo with _ | b
      · exact absurd hxd hx
      · cases b
        · cases hxv : env.xvfbRunning
          · exact ⟨some XVFB_DISPLAY,
              by simp [resolveDisplay, has_real_display, ensure_xvfb, h99, hempty, hxd, hxv],
              no_start_of_eq env
                [Effect.xdpyinfoQuery env.displayVar, Effect.pgrepXvfb,
                 Effect.startXvfb ["Xvfb", XVFB_DISPLAY, "-screen", "0", "1920x1080x24"],
                 Effect.sleep 1000, Effect.setEnvDisplay XVFB_DISPLAY]
                (by simp [resolveDisplay, has_real_display, ensure_xvfb, h99, hempty, hxd, hxv])
                (by intro e he; fin_cases he <;> rfl)⟩
          · exact ⟨some XVFB_DISPLAY,
              by simp [resolveDisplay, has_real_display, ensure_xvfb, h99, hempty, hxd, hxv],
              no_start_of_eq env
                [Effect.xdpyinfoQuery env.displayVar, Effect.pgrepXvfb,
                 Effect.setEnvDisplay XVFB_DISPLAY]
                (by simp [resolveDisplay, has_real_display, ensure_xvfb, h99, hempty, hxd, hxv])
                (by intro e he; fin_cases he <;> rfl)⟩
        · exact ⟨some env.displayVar,
            by simp [resolveDisplay, has_real_display, h99, hempty, hxd],
            no_start_of_eq env
              [Effect.xdpyinfoQuery env.displayVar]
              (by simp [resolveDisplay, has_real_display, h99, hempty, hxd])
              (by intro e he; fin_cases he; rfl)⟩

theorem launchPolls_skip : ∀ (pre suf : List Effect),
    (∀ e ∈ pre, e.isStartChrome = false) →
    launchPolls (pre ++ suf) = launchPolls suf := by
  intro pre
  induction pre with
  | nil => intro suf _; rfl
  | cons a t ih =>
      intro suf h
      have ha : a.isStartChrome = false := h a (by simp)
      have ht := ih suf (fun e he => h e (by simp [he]))
      simp only [List.cons_append, launchPolls, List.dropWhile, ha] at ht ⊢
      simpa using ht

theorem launchPolls_start (args : List String) (d : Option String) (ltr : List Effect) :
    launchPolls (Effect.startChrome args d :: ltr) =
      (ltr.filter Effect.isProbe).length := by
  simp [launchPolls, List.dropWhile, Effect.isStartChrome, Effect.isProbe, List.filter]

theorem awaitCdpReady_allFalse (probe : Nat → Bool) (h : ∀ n, probe n = false) :
    ∀ (attempts i : Nat),
      awaitCdpReady probe attempts i =
        (false, (List.replicate attempts
          [Effect.sleep 1000, Effect.probe CDP_PORT]).flatten) := by
  intro attempts
  induction attempts with
  | zero => intro i; simp [awaitCdpReady]
  | succ n ih =>
      intro i
      simp [awaitCdpReady, h i, ih, List.replicate_succ, List.flatten_cons]

theorem filter_flatten_replicate :
    ∀ n, (((List.replicate n [Effect.sleep 1000, Effect.probe CDP_PORT]).flatten).filter
      Effect.isProbe).length = n := by
  intro n
  induction n with
  | zero => rfl
  | succ k ih => simp [List.replicate_succ, List.flatten_cons, Effect.isProbe, ih]

theorem ensure_reaches_launch (env : SysEnv) (bin : String)
    (hp : env.portProbe 0 = false) (hb : env.chromeBin = some bin)
    (hx : env.displayVar = "" ∨ env.displayVar = XVFB_DISPLAY ∨ env.xdpyinfo ≠ none) :
    ∃ display dtr, (∀ e ∈ dtr, e.isStartChrome = false) ∧
      ensure_chrome_cdp env =
        (Except.ok (awaitCdpReady env.portProbe 5 1).1,
         [Effect.probe CDP_PORT, Effect.findChrome] ++ dtr ++
         [Effect.pkill (if env.isMac then "Google Chrome" else "google-chrome"),
          Effect.sleep 2000,
          Effect.unlinkLock (env.home ++ "/.chrome_bot" ++ "/SingletonLock"),
          Effect.startChrome
            (buildChromeArgs bin (env.home ++ "/.chrome_bot")
              (headlessFromEnv env.headlessVar) display) display] ++
         (awaitCdpReady env.portProbe 5 1).2) := by
  cases hm : env.isMac
  case false =>
    obtain ⟨d, h1, h2⟩ := resolveDisplay_ok env hx
    have hr : resolveDisplay env = (Except.ok (DisplayRes.use d), (resolveDisplay env).2) := by
      rw [← h1]
    generalize htr : (resolveDisplay env).2 = tr at hr h2
    refine ⟨d, tr, h2, ?_⟩
    simp [ensure_chrome_cdp, hp, hb, hm, hr]
  case true =>
    exact ⟨none, [], by simp, by simp [ensure_chrome_cdp, hp, hb, hm]⟩

/-! ## Lifecycle claims -/

/-- C1 counterexample: on the twpost.py variant of ensure_chrome_cdp, which
the claim also covers, a probe that never reports the port open is polled
exactly 3 times after the browser start, not 5, before False is returned. -/
theorem claim1_counterexample :
    launchPolls (twpost_ensure_chrome_cdp ⟨fun _ => false, "/app"⟩).2 = 3 ∧
    launchPolls (twpost_ensure_chrome_cdp ⟨fun _ => false, "/app"⟩).2 ≠ 5 ∧
    (twpost_ensure_chrome_cdp ⟨fun _ => false, "/app"⟩).1 = false := by
  exact ⟨by decide, by decide, rfl⟩

/-- C1 (amended): with a probe that never reports the port open, the
readiness loop of chrome_utils.ensure_chrome_cdp polls exactly 5 times
after the browser start and the call returns False; the twpost.py variant
polls exactly 3 times and likewise returns False. -/
theorem claim1_readiness_poll_counts :
    (∀ (env : SysEnv) (bin : String),
      (∀ n, env.portProbe n = false) → env.chromeBin = some bin →
      env.xdpyinfo ≠ none →
      (ensure_chrome_cdp env).1 = Except.ok false ∧
      launchPolls (ensure_chrome_cdp env).2 = 5) ∧
    (∀ env : TwEnv, (∀ n, env.portProbe n = false) →
      (twpost_ensure_chrome_cdp env).1 = false ∧
      launchPolls (twpost_ensure_chrome_cdp env).2 = 3) := by
  constructor
  · intro env bin hp hb hx
    obtain ⟨d, dtr, hd, he⟩ :=
      ensure_reaches_launch env bin (hp 0) hb (Or.inr (Or.inr hx))
    have hw := awaitCdpReady_allFalse env.portProbe hp 5 1
    rw [he, hw]
    refine ⟨rfl, ?_⟩
    have hshape :
        [Effect.probe CDP_PORT, Effect.findChrome] ++ dtr ++
          [Effect.pkill (if env.isMac then "Google Chrome" else "google-chrome"),
           Effect.sleep 2000,
           Effect.unlinkLock (env.home ++ "/.chrome_bot" ++ "/SingletonLock"),
           Effect.startChrome
             (buildChromeArgs bin (env.home ++ "/.chrome_bot")
               (headlessFromEnv env.headlessVar) d) d] ++
          (List.replicate 5 [Effect.sleep 1000, Effect.probe CDP_PORT]).flatten =
        ([Effect.probe CDP_PORT, Effect.findChrome] ++ dtr ++
          [Effect.pkill (if env.isMac then "Google Chrome" else "google-chrome"),
           Effect.sleep 2000,
           Effect.unlinkLock (env.home ++ "/.chrome_bot" ++ "/SingletonLock")]) ++
          (Effect.startChrome
             (buildChromeArgs bin (env.home ++ "/.chrome_bot")
               (headlessFromEnv env.headlessVar) d) d ::
           (List.replicate 5 [Effect.sleep 1000, Effect.probe CDP_PORT]).flatten) := by
      simp
    have hpre : ∀ e ∈ ([Effect.probe CDP_PORT, Effect.findChrome] ++ dtr ++
          [Effect.pkill (if env.isMac then "Google Chrome" else "google-chrome"),
           Effect.sleep 2000,
           Effect.unlinkLock (env.home ++ "/.chrome_bot" ++ "/SingletonLock")]),
        e.isStartChrome = false := by
      intro e hmem
      rcases List.mem_append.1 hmem with hmem | hmem
      · rcases List.mem_append.1 hmem with hmem | hmem
        · fin_cases hmem <;> rfl
        · exact hd e hmem
      · fin_cases hmem <;> rfl
    simp only [hshape]
    rw [launchPolls_skip _ _ hpre, launchPolls_start]
    exact filter_flatten_replicate 5
  · intro env hp
    have hw := awaitCdpReady_allFalse env.portProbe hp 3 1
    have he : twpost_ensure_chrome_cdp env =
        ((awaitCdpReady env.portProbe 3 1).1,
         [Effect.probe CDP_PORT, Effect.pkill "chrome", Effect.sleep 2000,
          Effect.startChrome
            ["google-chrome",
             "--remote-debugging-port=" ++ toString CDP_PORT,
             "--user-data-dir=" ++ (env.scriptDir ++ "/.chrome")] none] ++
         (awaitCdpReady env.portProbe 3 1).2) := by
      simp [twpost_ensure_chrome_cdp, hp 0]
    rw [he, hw]
    refine ⟨rfl, ?_⟩
    have hshape2 :
        [Effect.probe CDP_PORT, Effect.pkill "chrome", Effect.sleep 2000,
          Effect.startChrome
            ["google-chrome",
             "--remote-debugging-port=" ++ toString CDP_PORT,
             "--user-data-dir=" ++ (env.scriptDir ++ "/.chrome")] none] ++
          (List.replicate 3 [Effect.sleep 1000, Effect.probe CDP_PORT]).flatten =
        [Effect.probe CDP_PORT, Effect.pkill "chrome", Effect.sleep 2000] ++
          (Effect.startChrome
            ["google-chrome",
             "--remote-debugging-port=" ++ toString CDP_PORT,
             "--user-data-dir=" ++ (env.scriptDir ++ "/.chrome")] none ::
           (List.replicate 3 [Effect.sleep 1000, Effect.probe CDP_PORT]).flatten) := by
      simp
    simp only [hshape2]
    rw [launchPolls_skip _ _ (by intro e hmem; fin_cases hmem <;> rfl), launchPolls_start]
    exact filter_flatten_replicate 3

theorem claim1_witness :
    ((ensure_chrome_cdp ⟨fun _ => false, some "google-chrome", true, "",
        none, some true, false, "", "/root"⟩).1 = Except.ok false ∧
     launchPolls (ensure_chrome_cdp ⟨fun _ => false, some "google-chrome", true, "",
        none, some true, false, "", "/root"⟩).2 = 5) ∧
    ((twpost_ensure_chrome_cdp ⟨fun _ => false, "/app"⟩).1 = false ∧
     launchPolls (twpost_ensure_chrome_cdp ⟨fun _ => false, "/app"⟩).2 = 3) :=
  ⟨claim1_readiness_poll_counts.1
      ⟨fun _ => false, some "google-chrome", true, "", none, some true, false, "", "/root"⟩
      "google-chrome" (fun _ => rfl) rfl (by decide),
   claim1_readiness_poll_counts.2 ⟨fun _ => false, "/app"⟩ (fun _ => rfl)⟩

/-- C3: when the probe reports the debug port already open, both
ensure_chrome_cdp implementations return success with a trace consisting of
exactly that one probe: no executable search, no display resolution, no
process kill, no lock removal, no process start; a second call while a
session is live therefore changes nothing. -/
theorem claim3_fast_path_idempotent :
    (∀ env : SysEnv, env.portProbe 0 = true →
      ensure_chrome_cdp env = (Except.ok true, [Effect.probe CDP_PORT])) ∧
    (∀ env : TwEnv, env.portProbe 0 = true →
      twpost_ensure_chrome_cdp env = (true, [Effect.probe CDP_PORT])) := by
  constructor
  · intro env h; simp [ensure_chrome_cdp, h]
  · intro env h; simp [twpost_ensure_chrome_cdp, h]

theorem claim3_witness :
    ensure_chrome_cdp ⟨fun _ => true, none, false, "", none, none, false, "", "/root"⟩ =
      (Except.ok true, [Effect.probe CDP_PORT]) ∧
    twpost_ensure_chrome_cdp ⟨fun _ => true, "/app"⟩ =
      (true, [Effect.probe CDP_PORT]) :=
  ⟨claim3_fast_path_idempotent.1 _ rfl, claim3_fast_path_idempotent.2 _ rfl⟩

/-- C5 counterexample: with the port closed, Chrome present, a Linux
environment whose DISPLAY is ":0" and whose xdpyinfo utility fails to run,
ensure_chrome_cdp propagates the exception raised inside has_real_display
instead of returning a typed False result. -/
theorem claim5_counterexample :
    (ensure_chrome_cdp ⟨fun _ => false, some "google-chrome", false, ":0",
        some false, none, false, "", "/root"⟩).1 =
      Except.error "subprocess: xdpyinfo failed to run" := rfl

/-- C5 (amended): ensure_chrome_cdp reports every lifecycle failure as a
typed boolean result and raises no exception, except that an exception from
the display-info query (xdpyinfo missing or unresponsive) propagates when
display verification is actually reached, that is on a non-mac host whose
DISPLAY is set and differs from the reserved virtual identifier. -/
theorem claim5_typed_failures (env : SysEnv)
    (h : env.isMac = true ∨ env.displayVar = "" ∨ env.displayVar = XVFB_DISPLAY ∨
      env.xdpyinfo ≠ none) :
    ∃ b, (ensure_chrome_cdp env).1 = Except.ok b := by
  by_cases hp : env.portProbe 0 = true
  · exact ⟨true, by simp [ensure_chrome_cdp, hp]⟩
  · have hp' : env.portProbe 0 = false := by simpa using hp
    cases hb : env.chromeBin with
    | none => exact ⟨false, by simp [ensure_chrome_cdp, hp', hb]⟩
    | some bin =>
        cases hm : env.isMac
        · have hx : env.displayVar = "" ∨ env.displayVar = XVFB_DISPLAY ∨
              env.xdpyinfo ≠ none := by
            rcases h with h | h
            · simp [hm] at h
            · exact h
          obtain ⟨d, dtr, hd, he⟩ := ensure_reaches_launch env bin hp' hb hx
          exact ⟨(awaitCdpReady env.portProbe 5 1).1, by rw [he]⟩
        · exact ⟨(awaitCdpReady env.portProbe 5 1).1,
            by simp [ensure_chrome_cdp, hp', hb, hm]⟩

theorem claim5_witness :
    ∃ b, (ensure_chrome_cdp ⟨fun _ => false, some "google-chrome", false, ":0",
        some false, some false, false, "", "/root"⟩).1 = Except.ok b :=
  claim5_typed_failures _ (Or.inr (Or.inr (Or.inr (by decide))))

/-- C7: the display resolver applies its policy in order: a set DISPLAY
different from the reserved ":99" that answers the xdpyinfo query is used
as the physical display and the Xvfb machinery is never consulted;
otherwise a running Xvfb for ":99" is reused without relaunching; otherwise
a new Xvfb is started at 1920x1080x24 on ":99" followed by a 1s
initialization wait. -/
theorem claim7_display_policy :
    (∀ env : SysEnv, env.displayVar ≠ XVFB_DISPLAY → env.displayVar ≠ "" →
      env.xdpyinfo = some true →
      (resolveDisplay env).1 = Except.ok (DisplayRes.use (some env.displayVar)) ∧
      Effect.pgrepXvfb ∉ (resolveDisplay env).2 ∧
      (∀ a, Effect.startXvfb a ∉ (resolveDisplay env).2)) ∧
    (∀ env : SysEnv, (has_real_display env).1 = Except.ok false →
      env.xvfbRunning = true →
      (resolveDisplay env).1 = Except.ok (DisplayRes.use (some XVFB_DISPLAY)) ∧
      (∀ a, Effect.startXvfb a ∉ (resolveDisplay env).2)) ∧
    (∀ env : SysEnv, (has_real_display env).1 = Except.ok false →
      env.xvfbRunning = false →
      (resolveDisplay env).1 = Except.ok (DisplayRes.use (some XVFB_DISPLAY)) ∧
      Effect.startXvfb ["Xvfb", XVFB_DISPLAY, "-screen", "0", "1920x1080x24"]
        ∈ (resolveDisplay env).2 ∧
      Effect.sleep 1000 ∈ (resolveDisplay env).2) := by
  refine ⟨?_, ?_, ?_⟩
  · intro env h99 hempty hxd
    rcases wake_screen_trace env with hwtr | hwtr <;>
      refine ⟨?_, ?_, ?_⟩ <;>
        simp [resolveDisplay, has_real_display, h99, hempty, hxd, hwtr]
  · intro env hreal hxv
    have hpair : has_real_display env = (Except.ok false, (has_real_display env).2) := by
      rw [← hreal]
    generalize htr : (has_real_display env).2 = htrl at hpair
    rcases wake_screen_trace env with hwtr | hwtr <;>
      rcases (htr ▸ has_real_display_trace env) with hh | ⟨d, hh⟩ <;>
        subst hh <;>
          refine ⟨?_, ?_⟩ <;>
            simp [resolveDisplay, hpair, ensure_xvfb, hxv, hwtr]
  · intro env hreal hxv
    have hpair : has_real_display env = (Except.ok false, (has_real_display env).2) := by
      rw [← hreal]
    generalize htr : (has_real_display env).2 = htrl at hpair
    rcases wake_screen_trace env with hwtr | hwtr <;>
      rcases (htr ▸ has_real_display_trace env) with hh | ⟨d, hh⟩ <;>
        subst hh <;>
          refine ⟨?_, ?_, ?_⟩ <;>
            simp [resolveDisplay, hpair, ensure_xvfb, hxv, hwtr]

theorem claim7_witness :
    (resolveDisplay ⟨fun _ => false, none, false, ":0", some false, some true,
        false, "", "/root"⟩).1 = Except.ok (DisplayRes.use (some ":0")) ∧
    (resolveDisplay ⟨fun _ => false, none, false, "", some false, none,
        true, "", "/root"⟩).1 = Except.ok (DisplayRes.use (some XVFB_DISPLAY)) ∧
    Effect.startXvfb ["Xvfb", XVFB_DISPLAY, "-screen", "0", "1920x1080x24"] ∈
      (resolveDisplay ⟨fun _ => false, none, false, "", some false, none,
        false, "", "/root"⟩).2 :=
  ⟨(claim7_display_policy.1
      ⟨fun _ => false, none, false, ":0", some false, some true, false, "", "/root"⟩
      (by decide) (by decide) rfl).1,
   (claim7_display_policy.2.1
      ⟨fun _ => false, none, false, "", some false, none, true, "", "/root"⟩
      rfl rfl).1,
   (claim7_display_policy.2.2
      ⟨fun _ => false, none, false, "", some false, none, false, "", "/root"⟩
      rfl rfl).2.1⟩

/-- C8: the launch argument list contains the headless flag exactly when the
CHROME_HEADLESS override is truthy (lowercases to 1, true or yes) or the
resolved display is the reserved virtual one, and it always contains the
fixed remote-debugging port and the dedicated profile directory. -/
theorem claim8_launch_args (bin dir s : String) (display : Option String)
    (hbin : bin ≠ "--headless=new") :
    (("--headless=new" ∈ buildChromeArgs bin dir (headlessFromEnv s) display) ↔
      (headlessFromEnv s = true ∨ display = some XVFB_DISPLAY)) ∧
    ("--remote-debugging-port=9222" ∈ buildChromeArgs bin dir (headlessFromEnv s) display) ∧
    (("--user-data-dir=" ++ dir) ∈ buildChromeArgs bin dir (headlessFromEnv s) display) ∧
    (headlessFromEnv s = true ↔
      s.toLower = "1" ∨ s.toLower = "true" ∨ s.toLower = "yes") := by
  have hdir : ¬ ("--headless=new" = "--user-data-dir=" ++ dir) := by
    intro hcon
    have hlen := congrArg String.length hcon
    rw [String.length_append] at hlen
    have h14 : ("--headless=new" : String).length = 14 := rfl
    have h16 : ("--user-data-dir=" : String).length = 16 := rfl
    rw [h14, h16] at hlen
    omega
  have hport : ("--remote-debugging-port=" ++ toString CDP_PORT) =
      "--remote-debugging-port=9222" := rfl
  have hlast : headlessFromEnv s = true ↔
      s.toLower = "1" ∨ s.toLower = "true" ∨ s.toLower = "yes" := by
    simp [headlessFromEnv, List.contains]
  by_cases hc : (headlessFromEnv s || display == some XVFB_DISPLAY) = true
  · have hc2 : headlessFromEnv s = true ∨ display = some XVFB_DISPLAY := by
      simpa using hc
    have heq : buildChromeArgs bin dir (headlessFromEnv s) display =
        [bin, "--remote-debugging-port=9222", "--user-data-dir=" ++ dir,
         "--headless=new"] := by
      simp [buildChromeArgs, hc, hport]
    refine ⟨?_, ?_, ?_, hlast⟩
    · rw [heq]
      exact ⟨fun _ => hc2, fun _ => by simp⟩
    · rw [heq]; simp
    · rw [heq]; simp
  · have hc3 : (headlessFromEnv s || display == some XVFB_DISPLAY) = false := by
      simpa using hc
    have heq : buildChromeArgs bin dir (headlessFromEnv s) display =
        [bin, "--remote-debugging-port=9222", "--user-data-dir=" ++ dir] := by
      simp [buildChromeArgs, hc3, hport]
    refine ⟨?_, ?_, ?_, hlast⟩
    · rw [heq]
      constructor
      · intro hmem
        rcases List.mem_cons.1 hmem with h | hmem
        · exact absurd h.symm hbin
        rcases List.mem_cons.1 hmem with h | hmem
        · exact absurd h (by decide)
        rcases List.mem_cons.1 hmem with h | hmem
        · exact absurd h hdir
        · simp at hmem
      · intro hrhs
        exfalso
        rcases hrhs with h | h
        · rw [h] at hc3; simp at hc3
        · rw [h] at hc3; simp at hc3
    · rw [heq]; simp
    · rw [heq]; simp

theorem claim8_witness :
    (("--headless=new" ∈ buildChromeArgs "google-chrome" "/root/.chrome_bot"
        (headlessFromEnv "") (some XVFB_DISPLAY)) ↔
      (headlessFromEnv "" = true ∨ (some XVFB_DISPLAY : Option String) = some XVFB_DISPLAY)) ∧
    ("--remote-debugging-port=9222" ∈ buildChromeArgs "google-chrome" "/root/.chrome_bot"
        (headlessFromEnv "") (some XVFB_DISPLAY)) ∧
    (("--user-data-dir=" ++ "/root/.chrome_bot") ∈ buildChromeArgs "google-chrome"
        "/root/.chrome_bot" (headlessFromEnv "") (some XVFB_DISPLAY)) ∧
    (headlessFromEnv "" = true ↔
      ("" : String).toLower = "1" ∨ ("" : String).toLower = "true" ∨
        ("" : String).toLower = "yes") :=
  claim8_launch_args "google-chrome" "/root/.chrome_bot" "" (some XVFB_DISPLAY) (by decide)

/-- C9: is_port_open is a total boolean function of the connect outcome: it
returns true exactly when the TCP connect to localhost succeeds within the
socket timeout, and false on refusal or timeout; connect_ex reports
failures as error codes, so no exception is raised. -/
theorem claim9_port_probe_total (net : Nat → ConnectOutcome) (port : Nat) :
    (is_port_open net port = true ↔ net port = ConnectOutcome.success) ∧
    (is_port_open net port = false ↔ net port ≠ ConnectOutcome.success) := by
  cases h : net port <;> simp [is_port_open, connect_ex, h]

end Twpost
